import Mathlib

set_option maxRecDepth 16000

/-!
Verification development for the `windows-ai-assistant` repository.

Two parts:

1. A model of the semantic intent classifier (`SemanticIntentClassifier.classify`)
   and the staged pentesting conversation engine (`PentestingAssistant`).
   The Python sources `spectral/semantic_intent_classifier.py` and
   `spectral/pentesting_assistant.py` are not part of the available sources
   (only `test_semantic_intent.py`, which exercises them, is), so these
   definitions are modelled from the specification, as noted in their doc
   comments.

2. A shallow embedding of `src/spectral/simple_task_executor.py`
   (`SimpleTaskExecutor`), translated directly from the Python source.
   Operating-system effects (subprocess, file system) are abstracted into an
   explicit environment of oracles; all string/dispatch logic is embedded
   faithfully.

All string manipulation is done on `List Char` (`String.data`) so that every
definition kernel-evaluates on concrete inputs.
-/

/-- ASCII lowercase of one character (models Python's `str.lower` on the
ASCII range used by the program's keyword tables). -/
def lowerChar (c : Char) : Char :=
  if 'A' ≤ c ∧ c ≤ 'Z' then Char.ofNat (c.toNat + 32) else c

/-- Lowercase a string (models `str.lower`). -/
def lowerStr (s : String) : String :=
  String.mk (s.data.map lowerChar)

/-- Whitespace test matching the characters Python's `str.strip` removes in
the inputs this program sees. -/
def isWs (c : Char) : Bool :=
  c = ' ' || c = '\t' || c = '\n' || c = '\r'

/-- Strip leading and trailing whitespace (models `str.strip`). -/
def stripStr (s : String) : String :=
  String.mk (((s.data.dropWhile isWs).reverse.dropWhile isWs).reverse)

/-- Substring search at the list level: index of the first occurrence of
`needle` in `hay` (models Python's `str.find`, with `none` for `-1`). -/
def findSubAux (hay needle : List Char) : Option Nat :=
  if needle.isPrefixOf hay then some 0
  else
    match hay with
    | [] => none
    | _ :: t => (findSubAux t needle).map (fun n => n + 1)

/-- Index of the first occurrence of `needle` in `hay` (models `str.find`). -/
def findSub (hay needle : String) : Option Nat :=
  findSubAux hay.data needle.data

/-- Substring containment (models Python's `needle in hay`). -/
def containsSub (hay needle : String) : Bool :=
  (findSub hay needle).isSome

/-- Characters that belong to a word token: letters and digits. -/
def isTokenChar (c : Char) : Bool :=
  c.isAlpha || c.isDigit

/-- Tokenizer worker: splits a character list into maximal alphanumeric runs,
accumulating the current token in reverse in `acc`. -/
def tokenizeAux : List Char → List Char → List String
  | [], acc => if acc.isEmpty then [] else [String.mk acc.reverse]
  | c :: rest, acc =>
    if isTokenChar c then tokenizeAux rest (c :: acc)
    else if acc.isEmpty then tokenizeAux rest acc
    else String.mk acc.reverse :: tokenizeAux rest []

/-- Modelled from the spec: word tokenization used by the classifier's
keyword/phrase matching (the classifier source
`spectral/semantic_intent_classifier.py` is missing): lowercase the text and
split it into maximal alphanumeric runs. -/
def tokenize (s : String) : List String :=
  tokenizeAux (lowerStr s).data []

/-- All single adjacent transpositions of a character list. -/
def swapVariants : List Char → List (List Char)
  | [] => []
  | [_] => []
  | a :: b :: rest =>
    (b :: a :: rest) :: (swapVariants (b :: rest)).map (fun l => a :: l)

/-- All single character duplications of a character list. -/
def dupVariants : List Char → List (List Char)
  | [] => []
  | a :: rest => (a :: a :: rest) :: (dupVariants rest).map (fun l => a :: l)

/-- Modelled from the spec: the classifier's fuzzy tolerance accepts token
variants with "a transposed or doubled letter" of a canonical keyword; this
enumerates exactly those variants. -/
def typoVariants (w : String) : List String :=
  (swapVariants w.data ++ dupVariants w.data).map String.mk

/-- The closed intent enumeration of the data model. -/
inductive SemanticIntent where
  | CODE
  | EXPLOITATION
  | RECONNAISSANCE
  | RESEARCH
  | CHAT
deriving DecidableEq, Repr

/-- Modelled from the spec: the curated attack/access vocabulary of the
missing classifier source; it outranks all other vocabularies. -/
def exploitVocab : List String :=
  ["exploit", "metasploit", "payload", "shell", "access", "windows",
   "powershell", "reverse", "tcp", "obfuscation"]

/-- Modelled from the spec: the generic programming vocabulary of the
missing classifier source. -/
def codeVocab : List String :=
  ["python", "script", "code", "keylogger", "write", "make"]

/-- Modelled from the spec: the reconnaissance (scanning, enumeration,
port/service discovery) vocabulary of the missing classifier source. -/
def reconVocab : List String :=
  ["scan", "port", "ports", "enumerate", "find", "open", "services"]

/-- Modelled from the spec: the research (CVE identifiers, vulnerability
lookup) vocabulary of the missing classifier source. -/
def researchVocab : List String :=
  ["vulnerability", "vulnerabilities", "cve", "research", "assess"]

/-- Does the first character list arise from the second by transposing one
adjacent pair? Walks the common prefix and checks the swap at the first
divergence. -/
def isTranspositionOf : List Char → List Char → Bool
  | c1 :: c2 :: t1, d1 :: d2 :: t2 =>
    if c1 = d1 then isTranspositionOf (c2 :: t1) (d2 :: t2)
    else c1 = d2 && c2 = d1 && t1 == t2
  | _, _ => false

/-- Does the first character list arise from the second by doubling one
character? Walks the common prefix and checks the doubling at each
position. -/
def isDuplicationOf : List Char → List Char → Bool
  | c1 :: c2 :: t1, d1 :: t2 =>
    if c1 = d1 then (c2 = d1 && t1 == t2) || isDuplicationOf (c2 :: t1) t2
    else false
  | _, _ => false

/-- A token matches a canonical keyword exactly, or as a single-transposition
or single-duplication typo of it. -/
def tokenMatchesKeyword (w token : String) : Bool :=
  token == w || isTranspositionOf token.data w.data || isDuplicationOf token.data w.data

/-- A token hits a vocabulary when it matches one of its keywords. -/
def vocabHitToken (vocab : List String) (token : String) : Bool :=
  vocab.any (fun w => tokenMatchesKeyword w token)

/-- A token list hits a vocabulary when some token does. -/
def vocabHits (vocab : List String) (tokens : List String) : Bool :=
  tokens.any (vocabHitToken vocab)

/-- Number of exact keyword hits of a token list in a vocabulary. -/
def exactHits (vocab : List String) (tokens : List String) : Nat :=
  tokens.countP (fun t => vocab.contains t)

/-- Number of fuzzy-only keyword hits of a token list in a vocabulary. -/
def fuzzyHits (vocab : List String) (tokens : List String) : Nat :=
  tokens.countP (fun t => !vocab.contains t && vocabHitToken vocab t)

/-- Modelled from the spec: confidence is a monotone function of vocabulary
hits, with exact hits weighing more than fuzzy hits, clamped into `[0, 1]`. -/
def confidenceOf (vocab : List String) (tokens : List String) : ℚ :=
  min 1 ((3 * (exactHits vocab tokens : ℚ) + 2 * (fuzzyHits vocab tokens : ℚ)) / 10)

/-- Modelled from the spec: priority-ordered label choice of the missing
classifier source — attack/access vocabulary outranks programming vocabulary,
then reconnaissance, then research, defaulting to `CHAT`. -/
def classifyLabelTokens (tokens : List String) : SemanticIntent :=
  if vocabHits exploitVocab tokens then .EXPLOITATION
  else if vocabHits codeVocab tokens then .CODE
  else if vocabHits reconVocab tokens then .RECONNAISSANCE
  else if vocabHits researchVocab tokens then .RESEARCH
  else .CHAT

/-- Modelled from the spec: the heuristic path of
`SemanticIntentClassifier.classify` with no language-generation backend
(the source file is missing): keyword/fuzzy vocabulary matching with
priority ordering, total on every input, defaulting to `CHAT` with low
confidence. -/
def classify (text : String) : SemanticIntent × ℚ :=
  let tokens := tokenize text
  if vocabHits exploitVocab tokens then (.EXPLOITATION, confidenceOf exploitVocab tokens)
  else if vocabHits codeVocab tokens then (.CODE, confidenceOf codeVocab tokens)
  else if vocabHits reconVocab tokens then (.RECONNAISSANCE, confidenceOf reconVocab tokens)
  else if vocabHits researchVocab tokens then (.RESEARCH, confidenceOf researchVocab tokens)
  else (.CHAT, 1 / 10)

/-- All canonical keywords across the four vocabularies. -/
def allKeywords : List String :=
  exploitVocab ++ codeVocab ++ reconVocab ++ researchVocab

/-- The four vocabularies in priority order. -/
def vocabList : List (List String) :=
  [exploitVocab, codeVocab, reconVocab, researchVocab]

/-- Finite check: replacing a canonical keyword by any of its typo variants
changes no vocabulary's hit status. -/
def typoHitCheck : Bool :=
  vocabList.all (fun V =>
    allKeywords.all (fun k =>
      (typoVariants k).all (fun k' => vocabHitToken V k' == vocabHitToken V k)))

/-- The ordered methodology stage enumeration of the data model. -/
inductive ExploitStage where
  | RECONNAISSANCE
  | ENUMERATION
  | VULNERABILITY_ASSESSMENT
  | METHODOLOGY_SELECTION
  | EXPLOITATION
deriving DecidableEq, Repr

/-- Position of a stage in the methodology order. -/
def stageIdx : ExploitStage → Nat
  | .RECONNAISSANCE => 0
  | .ENUMERATION => 1
  | .VULNERABILITY_ASSESSMENT => 2
  | .METHODOLOGY_SELECTION => 3
  | .EXPLOITATION => 4

/-- The stage one position later in the methodology order. -/
def nextStage : ExploitStage → ExploitStage
  | .RECONNAISSANCE => .ENUMERATION
  | .ENUMERATION => .VULNERABILITY_ASSESSMENT
  | .VULNERABILITY_ASSESSMENT => .METHODOLOGY_SELECTION
  | .METHODOLOGY_SELECTION => .EXPLOITATION
  | .EXPLOITATION => .EXPLOITATION

/-- The conversation-scoped target record of the data model. -/
structure TargetContext where
  address : Option String
  os : Option String
  services : List String
  methodology : Option String
deriving DecidableEq, Repr

/-- The fully empty target context. -/
def emptyTarget : TargetContext :=
  { address := none, os := none, services := [], methodology := none }

/-- Whether no target fact has been established yet. -/
def targetEmpty (t : TargetContext) : Bool :=
  t.address.isNone && t.os.isNone && t.services.isEmpty && t.methodology.isNone

/-- The conversation engine's state: current stage plus target context. -/
structure PentestState where
  stage : ExploitStage
  target : TargetContext
deriving DecidableEq, Repr

/-- The initial engine state: stage `RECONNAISSANCE`, empty target. -/
def initState : PentestState :=
  { stage := .RECONNAISSANCE, target := emptyTarget }

/-- Modelled from the spec: the small fixed set of context-clear phrases
("forget/reset/start over") of the missing engine source
`spectral/pentesting_assistant.py`, matched as substrings of the lowered
message. -/
def clearPhrases : List String :=
  ["forget", "reset", "start over", "clear"]

/-- Whether a message is a context-clear instruction. -/
def isClearCommand (msg : String) : Bool :=
  clearPhrases.any (fun p => containsSub (lowerStr msg) p)

/-- Grab a run of digits from the front of a character list. -/
def takeDigits : List Char → List Char × List Char
  | [] => ([], [])
  | c :: rest =>
    if c.isDigit then
      let (ds, r) := takeDigits rest
      (c :: ds, r)
    else ([], c :: rest)

/-- Try to parse a dotted-quad IPv4 literal starting at the head of the
character list. -/
def parseIPv4At (cs : List Char) : Option (List Char) :=
  let (d1, r1) := takeDigits cs
  if d1.isEmpty then none else
  match r1 with
  | '.' :: r2 =>
    let (d2, r3) := takeDigits r2
    if d2.isEmpty then none else
    match r3 with
    | '.' :: r4 =>
      let (d3, r5) := takeDigits r4
      if d3.isEmpty then none else
      match r5 with
      | '.' :: r6 =>
        let (d4, _) := takeDigits r6
        if d4.isEmpty then none else
        some (d1 ++ '.' :: d2 ++ '.' :: d3 ++ '.' :: d4)
      | _ => none
    | _ => none
  | _ => none

/-- Scan a character list for the first dotted-quad IPv4 literal. -/
def findIPv4Aux : List Char → Option String
  | [] => none
  | c :: rest =>
    match parseIPv4At (c :: rest) with
    | some ip => some (String.mk ip)
    | none => findIPv4Aux rest

/-- Modelled from the spec: address extraction of the missing engine source —
the first dotted-quad network address appearing in the free text. -/
def findIPv4 (s : String) : Option String :=
  findIPv4Aux s.data

/-- Modelled from the spec: operating-system descriptors recognised by the
missing engine source. -/
def osNames : List String :=
  ["windows", "linux", "macos", "mac", "ubuntu"]

/-- Modelled from the spec: OS-descriptor extraction — the first recognised
OS name token of the message. -/
def extractOS (text : String) : Option String :=
  (osNames.filter (fun o => (tokenize text).contains o)).head?

/-- Modelled from the spec: service names recognised by the missing engine
source during enumeration. -/
def serviceNames : List String :=
  ["smb", "http", "https", "ftp", "ssh", "rdp", "smtp", "mysql"]

/-- Modelled from the spec: service/port-fact extraction — the recognised
service-name tokens of the message. -/
def extractServices (text : String) : List String :=
  serviceNames.filter (fun s => (tokenize text).contains s)

/-- Add newly discovered services, keeping the collection duplicate-free. -/
def addServices (base incoming : List String) : List String :=
  incoming.foldl (fun acc s => if acc.contains s then acc else acc ++ [s]) base

/-- Modelled from the spec: delivery/technique keywords recognised by the
missing engine source during methodology selection. -/
def methodologyKeywords : List String :=
  ["powershell", "reverse", "tcp", "meterpreter", "phishing", "macro",
   "obfuscation", "payload", "exe"]

/-- Modelled from the spec: methodology extraction — when the message names a
delivery/technique keyword, the whole message is recorded as the chosen
methodology description. -/
def extractMethodology (text : String) : Option String :=
  if methodologyKeywords.any (fun k => (tokenize text).contains k) then some text
  else none

/-- Modelled from the spec: fact extraction "appropriate to the current stage
only", merged additively (a newly extracted value wins, absence keeps the old
value). -/
def updateTarget (st : ExploitStage) (text : String) (t : TargetContext) : TargetContext :=
  match st with
  | .RECONNAISSANCE =>
    { t with address := (findIPv4 text).orElse (fun _ => t.address),
             os := (extractOS text).orElse (fun _ => t.os) }
  | .ENUMERATION => { t with services := addServices t.services (extractServices text) }
  | .VULNERABILITY_ASSESSMENT => t
  | .METHODOLOGY_SELECTION =>
    { t with methodology := (extractMethodology text).orElse (fun _ => t.methodology) }
  | .EXPLOITATION => t

/-- Modelled from the spec: the minimum-fact policy governing when a stage's
required information is satisfied — an address to leave `RECONNAISSANCE`
(the no-shortcut test shows an OS word alone does not advance), at least one
service to leave `ENUMERATION` and `VULNERABILITY_ASSESSMENT` (which
auto-advances once services are known), and a chosen methodology to leave
`METHODOLOGY_SELECTION`. -/
def requiredSatisfied (st : ExploitStage) (t : TargetContext) : Bool :=
  match st with
  | .RECONNAISSANCE => t.address.isSome
  | .ENUMERATION => !t.services.isEmpty
  | .VULNERABILITY_ASSESSMENT => !t.services.isEmpty
  | .METHODOLOGY_SELECTION => t.methodology.isSome
  | .EXPLOITATION => true

/-- Modelled from the spec: security relevance of a classified intent —
`CHAT` is never relevant, `CODE` only with established target context. -/
def securityRelevant (i : SemanticIntent) (t : TargetContext) : Bool :=
  match i with
  | .CHAT => false
  | .CODE => !targetEmpty t
  | _ => true

/-- Acknowledgement returned for a context-clear instruction. -/
def clearResponse : String :=
  "Understood, target context wiped and methodology restarted from the top."

/-- Conversational reply for non-actionable messages. -/
def chatResponse : String :=
  "Happy to help with testing questions whenever you are ready."

/-- Modelled from the spec: the clarifying question asked while the current
stage's facts are still missing; it never carries ready-to-use output. -/
def askResponse : ExploitStage → String
  | .RECONNAISSANCE =>
    "I need some details first. What is the target IP address, and which operating system is it running? Please provide those before we continue."
  | .ENUMERATION =>
    "Which services and ports did you enumerate on the target? Please provide at least one."
  | .VULNERABILITY_ASSESSMENT =>
    "What weaknesses should we assess on the enumerated services? Please provide your findings."
  | .METHODOLOGY_SELECTION =>
    "Which delivery technique and methodology do you need? Please choose one."
  | .EXPLOITATION =>
    "Methodology gating is satisfied; hand-off to the delivery planner is possible."

/-- Modelled from the spec: confirmation produced when the stage advances,
confirming what was captured and asking for the next stage's information. -/
def advanceResponse (fromStage : ExploitStage) : String :=
  match fromStage with
  | .RECONNAISSANCE => "Target recorded. " ++ askResponse .ENUMERATION
  | .ENUMERATION => "Services recorded. " ++ askResponse .VULNERABILITY_ASSESSMENT
  | .VULNERABILITY_ASSESSMENT => "Assessment noted. " ++ askResponse .METHODOLOGY_SELECTION
  | .METHODOLOGY_SELECTION => "Methodology recorded. " ++ askResponse .EXPLOITATION
  | .EXPLOITATION => askResponse .EXPLOITATION

/-- Modelled from the spec: `PentestingAssistant.handle_pentest_request` of
the missing engine source. The clear check pre-empts everything; then the
message is classified; non-relevant messages leave the state untouched;
relevant messages merge stage-appropriate facts and advance exactly one stage
when the current stage's required facts are satisfied. -/
def handle_pentest_request (s : PentestState) (msg : String) : String × PentestState :=
  if isClearCommand msg then (clearResponse, initState)
  else
    let intent := (classify msg).1
    if securityRelevant intent s.target then
      let t := updateTarget s.stage msg s.target
      if requiredSatisfied s.stage t then
        (advanceResponse s.stage, { stage := nextStage s.stage, target := t })
      else
        (askResponse s.stage, { s with target := t })
    else
      (chatResponse, s)

/-- State after one message. -/
def stepState (s : PentestState) (msg : String) : PentestState :=
  (handle_pentest_request s msg).2

/-- State after a whole conversation from the initial state. -/
def runMsgs (msgs : List String) : PentestState :=
  msgs.foldl stepState initState

/-- The executor of `src/spectral/simple_task_executor.py`: its only fields
are the four keyword pattern lists assigned in `__init__`. -/
structure SimpleTaskExecutor where
  ip_address_patterns : List String
  list_files_patterns : List String
  read_file_patterns : List String
  run_command_patterns : List String
deriving DecidableEq, Repr

/-- `SimpleTaskExecutor.__init__`: the pattern lists as assigned in the
source. -/
def SimpleTaskExecutor.init : SimpleTaskExecutor :=
  { ip_address_patterns := ["ip", "ipconfig", "address", "network", "wifi", "connection"],
    list_files_patterns := ["list", "files", "folder", "directory", "show me"],
    read_file_patterns := ["read", "open", "show", "display", "view"],
    run_command_patterns := ["run", "execute", "command"] }

/-- `complex_keywords` of `SimpleTaskExecutor.can_handle`. -/
def complexKeywords : List String :=
  ["write", "create", "generate", "build", "program", "app", "application",
   "script", "code", "develop", "implement"]

/-- `SimpleTaskExecutor._matches_pattern`: any keyword occurs in the lowered
input. -/
def SimpleTaskExecutor.matches_pattern (userInput : String) (keywords : List String) : Bool :=
  keywords.any (fun k => containsSub (lowerStr userInput) k)

/-- The file extensions of `SimpleTaskExecutor._detect_file_path` (the
regular expressions there search for a dot followed by one of these). -/
def fileExtensions : List String :=
  ["txt", "md", "py", "js", "html", "css", "json", "xml", "csv", "log",
   "yaml", "yml", "ini", "cfg", "conf",
   "pdf", "doc", "docx", "xls", "xlsx", "ppt", "pptx",
   "jpg", "jpeg", "png", "gif", "bmp", "svg", "ico",
   "mp3", "mp4", "avi", "mov", "wav", "flac",
   "zip", "tar", "gz", "rar", "7z"]

/-- `SimpleTaskExecutor._detect_file_path`: the lowered input contains a dot
followed by a known extension. -/
def SimpleTaskExecutor.detect_file_path (userInput : String) : Bool :=
  fileExtensions.any (fun e => containsSub (lowerStr userInput) ("." ++ e))

/-- `SimpleTaskExecutor.can_handle`, with the executor state threaded through
explicitly: the source never assigns to `self`, so the state comes back
unchanged next to the boolean result. -/
def SimpleTaskExecutor.can_handle (self : SimpleTaskExecutor) (userInput : String) :
    Bool × SimpleTaskExecutor :=
  let userLower := lowerStr userInput
  let result :=
    if complexKeywords.any (fun k => containsSub userLower k) then false
    else if SimpleTaskExecutor.matches_pattern userInput self.ip_address_patterns then true
    else if SimpleTaskExecutor.matches_pattern userInput self.list_files_patterns
        && (["desktop", "downloads", "documents"].any (fun f => containsSub userLower f)) then true
    else if SimpleTaskExecutor.matches_pattern userInput self.read_file_patterns
        && (containsSub userLower "file" || SimpleTaskExecutor.detect_file_path userInput) then true
    else false
  (result, self)

/-- Oracles for the operating-system effects of the executor: the results of
`subprocess`/file-system interaction in `_get_ip_address`, `_list_files`,
`_read_file`, and of `subprocess.run` in `_run_command` (`none` models a
timeout, an exception, or a missing result). -/
structure OsEnv where
  ipAddressResult : Option String
  listFilesResult : String → Option String
  readFileResult : String → Option String
  runExecResult : String → Option String

/-- `dangerous_commands` of `SimpleTaskExecutor._run_command`. -/
def dangerous_commands : List String :=
  ["rm", "del", "format", "shutdown", "reboot"]

/-- The command-start markers searched by `_run_command`, in source order. -/
def commandMarkers : List String :=
  ["run ", "execute ", "command "]

/-- The `cmd_start` computation of `_run_command`: the first marker (in list
order) found in the lowered input, yielding the index just past it. -/
def commandStart (userInput : String) : Option Nat :=
  commandMarkers.findSome? (fun m =>
    (findSub (lowerStr userInput) m).map (fun idx => idx + m.data.length))

/-- The command extraction of `_run_command`: slice the original input from
`cmd_start` and strip it. -/
def extract_command (userInput : String) : Option String :=
  (commandStart userInput).map (fun cmdStart =>
    stripStr (String.mk (userInput.data.drop cmdStart)))

/-- What `_run_command` decides to do before touching the operating system. -/
inductive RunCmdDecision where
  | noCmd
  | blocked (command : String)
  | execCmd (command : String)
deriving DecidableEq, Repr

/-- The pure decision logic of `SimpleTaskExecutor._run_command`: no marker or
an empty command yields nothing; a command whose lowered text contains a
dangerous substring is blocked; otherwise the command is passed to
`subprocess.run`. -/
def run_command_decision (userInput : String) : RunCmdDecision :=
  match extract_command userInput with
  | none => .noCmd
  | some command =>
    if command = "" then .noCmd
    else if dangerous_commands.any (fun d => containsSub (lowerStr command) d) then
      .blocked command
    else .execCmd command

/-- The output post-processing of `_run_command`: truncate past 1000
characters, and substitute a fixed message for blank output. -/
def postprocessOutput (output : String) : String :=
  let out :=
    if output.data.length > 1000 then
      String.mk (output.data.take 1000) ++ "\n... (truncated, showing first 1000 characters)"
    else output
  if stripStr out = "" then "Command executed successfully (no output)" else out

/-- `SimpleTaskExecutor._run_command`: decide, then consult the subprocess
oracle only on the `execCmd` branch. -/
def SimpleTaskExecutor.run_command (env : OsEnv) (userInput : String) : Option String :=
  match run_command_decision userInput with
  | .execCmd command =>
    match env.runExecResult command with
    | some output => some (postprocessOutput output)
    | none => none
  | _ => none

/-- `SimpleTaskExecutor.execute`, with the executor state threaded through
explicitly. Each dispatch branch mirrors the source: pattern check, helper
call, then the source's truthiness/content filter on the helper result; the
first branch producing a result wins, exactly as the source's early returns
do, and the state comes back unchanged. -/
def SimpleTaskExecutor.execute (env : OsEnv) (self : SimpleTaskExecutor) (userInput : String) :
    Option String × SimpleTaskExecutor :=
  let userLower := lowerStr userInput
  let ipStep : Option String :=
    if SimpleTaskExecutor.matches_pattern userInput self.ip_address_patterns then
      match env.ipAddressResult with
      | some result =>
        if result ≠ "" && !containsSub (lowerStr result) "error" then some result else none
      | none => none
    else none
  let listStep : Option String :=
    if SimpleTaskExecutor.matches_pattern userInput self.list_files_patterns then
      match env.listFilesResult userInput with
      | some result =>
        if result ≠ "" && !containsSub (lowerStr result) "not found" then some result else none
      | none => none
    else none
  let readStep : Option String :=
    if SimpleTaskExecutor.matches_pattern userInput self.read_file_patterns
        && (containsSub userLower "file" || SimpleTaskExecutor.detect_file_path userInput) then
      match env.readFileResult userInput with
      | some result =>
        if result ≠ "" && !containsSub (lowerStr result) "please provide" then some result
        else none
      | none => none
    else none
  let runStep : Option String :=
    if SimpleTaskExecutor.matches_pattern userInput self.run_command_patterns then
      match SimpleTaskExecutor.run_command env userInput with
      | some result => if result ≠ "" then some result else none
      | none => none
    else none
  let result := ipStep.orElse (fun _ =>
    listStep.orElse (fun _ => readStep.orElse (fun _ => runStep)))
  (result, self)

/-- An environment whose oracles all fail; used for closed evaluations. -/
def emptyOsEnv : OsEnv :=
  { ipAddressResult := none,
    listFilesResult := fun _ => none,
    readFileResult := fun _ => none,
    runExecResult := fun _ => none }

/-- No vocabulary records any hit on the text's tokens. -/
def noVocabHit (text : String) : Bool :=
  !vocabHits exploitVocab (tokenize text) && !vocabHits codeVocab (tokenize text)
  && !vocabHits reconVocab (tokenize text) && !vocabHits researchVocab (tokenize text)

/-- The four-message conversation of the staged-progression property. -/
def stageDemoMsgs : List String :=
  ["test my Windows machine", "192.168.1.100 Windows 10", "SMB on port 445",
   "PowerShell reverse TCP, no obfuscation"]

/-- A conversation that satisfies every gate and reaches `EXPLOITATION`. -/
def exploitDemoMsgs : List String :=
  ["192.168.1.100 windows", "smb on port 445", "assess vulnerabilities",
   "use powershell delivery"]

/-- The stage-gating invariant: every stage past `RECONNAISSANCE` has an
address, every stage past `ENUMERATION` has an enumerated service, and
`EXPLOITATION` has a chosen methodology. -/
def stageInv (s : PentestState) : Prop :=
  (1 ≤ stageIdx s.stage → s.target.address.isSome = true)
  ∧ (2 ≤ stageIdx s.stage → s.target.services ≠ [])
  ∧ (4 ≤ stageIdx s.stage → s.target.methodology.isSome = true)

/-- The clarifying words tested for in the no-shortcut property. -/
def clarifyWords : List String :=
  ["what", "which", "how", "please", "provide", "need"]

set_option maxHeartbeats 4000000 in
/-- The finite typo-equivalence check holds on the concrete vocabularies. -/
theorem typoHitCheck_true : typoHitCheck = true := by decide

/-- Replacing a canonical keyword by one of its typo variants does not change
any vocabulary's hit status on that token. -/
theorem typoHit_eq (V : List String) (hV : V ∈ vocabList) (k : String)
    (hk : k ∈ allKeywords) (k' : String) (hk' : k' ∈ typoVariants k) :
    vocabHitToken V k' = vocabHitToken V k := by
  have hc := typoHitCheck_true
  unfold typoHitCheck at hc
  rw [List.all_eq_true] at hc
  have h1 := hc V hV
  rw [List.all_eq_true] at h1
  have h2 := h1 k hk
  rw [List.all_eq_true] at h2
  exact beq_iff_eq.mp (h2 k' hk')

/-- Replacing a canonical keyword by one of its typo variants does not change
any vocabulary's hit status on a whole token list. -/
theorem vocabHits_replace (V : List String) (hV : V ∈ vocabList)
    (pre post : List String) (k k' : String) (hk : k ∈ allKeywords)
    (hk' : k' ∈ typoVariants k) :
    vocabHits V (pre ++ k' :: post) = vocabHits V (pre ++ k :: post) := by
  unfold vocabHits
  simp only [List.any_append, List.any_cons]
  rw [typoHit_eq V hV k hk k' hk']

/-- The classifier's confidence always lies in the unit interval. -/
theorem confidenceOf_bounds (V : List String) (ts : List String) :
    0 ≤ confidenceOf V ts ∧ confidenceOf V ts ≤ 1 := by
  unfold confidenceOf
  refine ⟨le_min (by norm_num) (by positivity), min_le_left _ _⟩

/-- Fact extraction never loses an established address. -/
theorem updateTarget_address_mono (st : ExploitStage) (m : String) (t : TargetContext)
    (h : t.address.isSome = true) : (updateTarget st m t).address.isSome = true := by
  cases st with
  | RECONNAISSANCE =>
    simp only [updateTarget]
    cases hf : findIPv4 m <;> simp [Option.orElse, hf, h]
  | ENUMERATION => exact h
  | VULNERABILITY_ASSESSMENT => exact h
  | METHODOLOGY_SELECTION => exact h
  | EXPLOITATION => exact h

/-- Adding discovered services never empties the collection. -/
theorem addServices_ne_nil : ∀ (xs base : List String), base ≠ [] → addServices base xs ≠ []
  | [], _, h => h
  | x :: xs, base, h => by
    have h' : (if base.contains x then base else base ++ [x]) ≠ [] := by
      split
      · exact h
      · simp
    simpa [addServices, List.foldl_cons] using
      addServices_ne_nil xs (if base.contains x then base else base ++ [x]) h'

/-- Fact extraction never loses an established service. -/
theorem updateTarget_services_mono (st : ExploitStage) (m : String) (t : TargetContext)
    (h : t.services ≠ []) : (updateTarget st m t).services ≠ [] := by
  cases st with
  | RECONNAISSANCE => exact h
  | ENUMERATION => exact addServices_ne_nil (extractServices m) t.services h
  | VULNERABILITY_ASSESSMENT => exact h
  | METHODOLOGY_SELECTION => exact h
  | EXPLOITATION => exact h

/-- Fact extraction never loses an established methodology. -/
theorem updateTarget_methodology_mono (st : ExploitStage) (m : String) (t : TargetContext)
    (h : t.methodology.isSome = true) : (updateTarget st m t).methodology.isSome = true := by
  cases st with
  | RECONNAISSANCE => exact h
  | ENUMERATION => exact h
  | VULNERABILITY_ASSESSMENT => exact h
  | METHODOLOGY_SELECTION =>
    simp only [updateTarget]
    cases hf : extractMethodology m <;> simp [Option.orElse, hf, h]
  | EXPLOITATION => exact h

/-- The stage-gating invariant holds initially. -/
theorem stageInv_init : stageInv initState := by
  refine ⟨?_, ?_, ?_⟩ <;> intro h <;> simp [initState, stageIdx] at h

/-- One `handle` call preserves the stage-gating invariant. -/
theorem stageInv_step (s : PentestState) (m : String) (h : stageInv s) :
    stageInv (stepState s m) := by
  obtain ⟨st, t⟩ := s
  obtain ⟨h1, h2, h3⟩ := h
  have hA := updateTarget_address_mono st m t
  have hS := updateTarget_services_mono st m t
  have hM := updateTarget_methodology_mono st m t
  unfold stepState handle_pentest_request
  by_cases hc : isClearCommand m = true
  · rw [if_pos hc]
    exact stageInv_init
  · rw [if_neg hc]
    dsimp only
    by_cases hr : securityRelevant (classify m).1 t = true
    · rw [if_pos hr]
      by_cases hq : requiredSatisfied st (updateTarget st m t) = true
      · rw [if_pos hq]
        cases st with
        | RECONNAISSANCE =>
          refine ⟨fun _ => ?_, fun hh => ?_, fun hh => ?_⟩
          · exact hq
          · simp [stageIdx, nextStage] at hh
          · simp [stageIdx, nextStage] at hh
        | ENUMERATION =>
          refine ⟨fun _ => hA (h1 (by simp [stageIdx])), fun _ => ?_, fun hh => ?_⟩
          · simpa [requiredSatisfied] using hq
          · simp [stageIdx, nextStage] at hh
        | VULNERABILITY_ASSESSMENT =>
          refine ⟨fun _ => hA (h1 (by simp [stageIdx])), fun _ => ?_, fun hh => ?_⟩
          · simpa [requiredSatisfied] using hq
          · simp [stageIdx, nextStage] at hh
        | METHODOLOGY_SELECTION =>
          refine ⟨fun _ => hA (h1 (by simp [stageIdx])),
            fun _ => hS (h2 (by simp [stageIdx])), fun _ => hq⟩
        | EXPLOITATION =>
          exact ⟨fun hh => h1 hh, fun hh => h2 hh, fun hh => h3 hh⟩
      · rw [if_neg hq]
        exact ⟨fun hh => hA (h1 hh), fun hh => hS (h2 hh), fun hh => hM (h3 hh)⟩
    · rw [if_neg hr]
      exact ⟨h1, h2, h3⟩

/-- Any message sequence preserves the stage-gating invariant. -/
theorem stageInv_foldl : ∀ (msgs : List String) (s : PentestState),
    stageInv s → stageInv (msgs.foldl stepState s)
  | [], _, h => h
  | m :: ms, s, h => stageInv_foldl ms (stepState s m) (stageInv_step s m h)

/-- C1: for "generate metasploit windows payload" as the first message of a
fresh conversation, the engine's response contains a clarifying word,
contains no code fence and no tool-invocation string (msfvenom), and the
stage stays `RECONNAISSANCE`. -/
theorem claim_C1_no_shortcut :
    (clarifyWords.any (fun w =>
      containsSub (lowerStr (handle_pentest_request initState "generate metasploit windows payload").1) w)) = true
    ∧ containsSub (handle_pentest_request initState "generate metasploit windows payload").1 "```" = false
    ∧ containsSub (lowerStr (handle_pentest_request initState "generate metasploit windows payload").1) "msfvenom" = false
    ∧ (handle_pentest_request initState "generate metasploit windows payload").2.stage
        = ExploitStage.RECONNAISSANCE := by
  refine ⟨by decide, by decide, by decide, by decide⟩

/-- C7: the ten canonical example inputs spanning the five intents each
classify to their expected label. -/
theorem claim_C7_classification_coverage :
    (classify "make python keylogger").1 = SemanticIntent.CODE
    ∧ (classify "write a script to scan ports").1 = SemanticIntent.CODE
    ∧ (classify "remote access windows with metasploit").1 = SemanticIntent.EXPLOITATION
    ∧ (classify "get shell on linux target").1 = SemanticIntent.EXPLOITATION
    ∧ (classify "find open ports").1 = SemanticIntent.RECONNAISSANCE
    ∧ (classify "enumerate target services").1 = SemanticIntent.RECONNAISSANCE
    ∧ (classify "what vulnerabilities in Apache 2.4.41").1 = SemanticIntent.RESEARCH
    ∧ (classify "research CVE-2021-41773").1 = SemanticIntent.RESEARCH
    ∧ (classify "hello, how are you?").1 = SemanticIntent.CHAT
    ∧ (classify "tell me a joke").1 = SemanticIntent.CHAT := by
  refine ⟨by decide, by decide, by decide, by decide, by decide,
    by decide, by decide, by decide, by decide, by decide⟩

/-- C9: `can_handle` and `execute` leave every field of the executor
unchanged on every input and in every operating-system environment — the
executor is a thin dispatcher with no mutable state. -/
theorem claim_C9_executor_stateless (env : OsEnv) (self : SimpleTaskExecutor) (input : String) :
    (SimpleTaskExecutor.can_handle self input).2 = self
    ∧ (SimpleTaskExecutor.execute env self input).2 = self :=
  ⟨rfl, rfl⟩

/-- C10: whenever `_run_command` extracts a non-empty command whose lowered
text contains a dangerous substring, the decision is `blocked` — the
subprocess oracle is never consulted and the run-command path of `execute`
yields `none` in every environment. -/
theorem claim_C10_dangerous_blocked (input command : String)
    (h1 : extract_command input = some command)
    (h2 : command ≠ "")
    (h3 : dangerous_commands.any (fun d => containsSub (lowerStr command) d) = true) :
    run_command_decision input = RunCmdDecision.blocked command
    ∧ ∀ env : OsEnv, SimpleTaskExecutor.run_command env input = none := by
  have hd : run_command_decision input = RunCmdDecision.blocked command := by
    unfold run_command_decision
    rw [h1]
    dsimp only
    rw [if_neg h2, if_pos h3]
  refine ⟨hd, fun env => ?_⟩
  unfold SimpleTaskExecutor.run_command
  rw [hd]

/-- Witness for C10: the concrete input "run rm old.txt" extracts the
dangerous command "rm old.txt", which is blocked and never executed. -/
theorem claim_C10_witness :
    run_command_decision "run rm old.txt" = RunCmdDecision.blocked "rm old.txt"
    ∧ SimpleTaskExecutor.run_command emptyOsEnv "run rm old.txt" = none :=
  ⟨(claim_C10_dangerous_blocked "run rm old.txt" "rm old.txt" (by decide) (by decide) (by decide)).1,
   (claim_C10_dangerous_blocked "run rm old.txt" "rm old.txt"
      (by decide) (by decide) (by decide)).2 emptyOsEnv⟩

/-- C2: in every state reachable from the initial state by `handle` calls,
stage `EXPLOITATION` implies an address or OS descriptor, at least one
enumerated service, and a chosen methodology. -/
theorem claim_C2_exploitation_gated (msgs : List String)
    (h : (runMsgs msgs).stage = ExploitStage.EXPLOITATION) :
    ((runMsgs msgs).target.address.isSome = true ∨ (runMsgs msgs).target.os.isSome = true)
    ∧ (runMsgs msgs).target.services ≠ []
    ∧ (runMsgs msgs).target.methodology.isSome = true := by
  unfold runMsgs at h ⊢
  obtain ⟨h1, h2, h3⟩ := stageInv_foldl msgs initState stageInv_init
  rw [h] at h1 h2 h3
  exact ⟨Or.inl (h1 (by decide)), h2 (by decide), h3 (by decide)⟩

/-- Witness for C2: a concrete conversation that reaches `EXPLOITATION`, at
which point address, service and methodology are all established. -/
theorem claim_C2_witness :
    (runMsgs exploitDemoMsgs).stage = ExploitStage.EXPLOITATION
    ∧ (((runMsgs exploitDemoMsgs).target.address.isSome = true
        ∨ (runMsgs exploitDemoMsgs).target.os.isSome = true)
      ∧ (runMsgs exploitDemoMsgs).target.services ≠ []
      ∧ (runMsgs exploitDemoMsgs).target.methodology.isSome = true) :=
  ⟨by decide, claim_C2_exploitation_gated exploitDemoMsgs (by decide)⟩

/-- C3: every single `handle` step leaves the stage unchanged, advances it
exactly one position, or resets it to `RECONNAISSANCE`; and the concrete
four-message conversation walks
`RECONNAISSANCE, ENUMERATION, VULNERABILITY_ASSESSMENT, METHODOLOGY_SELECTION`
without ever reaching `EXPLOITATION`. -/
theorem claim_C3_monotone_progression :
    (∀ (s : PentestState) (msg : String),
      (stepState s msg).stage = s.stage
      ∨ (stepState s msg).stage = nextStage s.stage
      ∨ (stepState s msg).stage = ExploitStage.RECONNAISSANCE)
    ∧ (runMsgs (stageDemoMsgs.take 1)).stage = ExploitStage.RECONNAISSANCE
    ∧ (runMsgs (stageDemoMsgs.take 2)).stage = ExploitStage.ENUMERATION
    ∧ (runMsgs (stageDemoMsgs.take 3)).stage = ExploitStage.VULNERABILITY_ASSESSMENT
    ∧ (runMsgs stageDemoMsgs).stage = ExploitStage.METHODOLOGY_SELECTION := by
  refine ⟨?_, by decide, by decide, by decide, by decide⟩
  intro s msg
  unfold stepState handle_pentest_request
  by_cases hc : isClearCommand msg = true
  · rw [if_pos hc]
    exact Or.inr (Or.inr rfl)
  · rw [if_neg hc]
    dsimp only
    by_cases hr : securityRelevant (classify msg).1 s.target = true
    · rw [if_pos hr]
      by_cases hq : requiredSatisfied s.stage (updateTarget s.stage msg s.target) = true
      · rw [if_pos hq]
        exact Or.inr (Or.inl rfl)
      · rw [if_neg hq]
        exact Or.inl rfl
    · rw [if_neg hr]
      exact Or.inl rfl

/-- C4: a context-clear instruction resets the engine from any state: the
result is exactly the clear acknowledgement and the initial state (empty
target, stage `RECONNAISSANCE`), pre-empting all other processing. -/
theorem claim_C4_clear_preempts (s : PentestState) (msg : String)
    (h : isClearCommand msg = true) :
    handle_pentest_request s msg = (clearResponse, initState)
    ∧ (handle_pentest_request s msg).2.target = emptyTarget
    ∧ (handle_pentest_request s msg).2.stage = ExploitStage.RECONNAISSANCE := by
  have he : handle_pentest_request s msg = (clearResponse, initState) := by
    unfold handle_pentest_request
    rw [if_pos h]
  rw [he]
  exact ⟨rfl, rfl, rfl⟩

/-- Witness for C4: "forget about that" is a clear instruction, and from a
populated, advanced state it yields the fully reset engine. -/
theorem claim_C4_witness :
    isClearCommand "forget about that" = true
    ∧ handle_pentest_request (stepState initState "192.168.1.100 Windows 10") "forget about that"
        = (clearResponse, initState) :=
  ⟨by decide,
   (claim_C4_clear_preempts (stepState initState "192.168.1.100 Windows 10")
      "forget about that" (by decide)).1⟩

/-- C5: `classify` is a total function into the closed intent enumeration;
its confidence always lies in the unit interval, and on text with no
vocabulary hit it returns `CHAT` with low confidence. -/
theorem claim_C5_classifier_total (text : String) :
    (0 ≤ (classify text).2 ∧ (classify text).2 ≤ 1)
    ∧ (noVocabHit text = true →
        (classify text).1 = SemanticIntent.CHAT ∧ (classify text).2 ≤ 3 / 10) := by
  have hb : ∀ V : List String,
      0 ≤ confidenceOf V (tokenize text) ∧ confidenceOf V (tokenize text) ≤ 1 :=
    fun V => confidenceOf_bounds V (tokenize text)
  constructor
  · unfold classify
    dsimp only
    split
    · exact hb _
    · split
      · exact hb _
      · split
        · exact hb _
        · split
          · exact hb _
          · constructor <;> norm_num
  · intro hnv
    unfold noVocabHit at hnv
    simp only [Bool.and_eq_true, Bool.not_eq_true'] at hnv
    obtain ⟨⟨⟨e1, e2⟩, e3⟩, e4⟩ := hnv
    unfold classify
    dsimp only
    simp only [e1, e2, e3, e4, Bool.false_eq_true, if_false]
    norm_num

/-- Witness for C5: a concrete no-hit input gets `CHAT` with low
confidence inside the unit interval. -/
theorem claim_C5_witness :
    (0 ≤ (classify "tell me a joke").2 ∧ (classify "tell me a joke").2 ≤ 1)
    ∧ ((classify "tell me a joke").1 = SemanticIntent.CHAT
      ∧ (classify "tell me a joke").2 ≤ 3 / 10) :=
  ⟨(claim_C5_classifier_total "tell me a joke").1,
   (claim_C5_classifier_total "tell me a joke").2 (by decide)⟩

/-- C6: replacing a canonical keyword anywhere in a token list by a
single-transposition or single-duplication variant never changes the label,
and the three canonical typo inputs classify as their canonical phrases do. -/
theorem claim_C6_typo_tolerance :
    (∀ (pre post : List String) (k k' : String), k ∈ allKeywords → k' ∈ typoVariants k →
      classifyLabelTokens (pre ++ k' :: post) = classifyLabelTokens (pre ++ k :: post))
    ∧ (classify "pyhton keylogger").1 = SemanticIntent.CODE
    ∧ (classify "winndows exploit").1 = SemanticIntent.EXPLOITATION
    ∧ (classify "scann ports").1 = SemanticIntent.RECONNAISSANCE := by
  refine ⟨?_, by decide, by decide, by decide⟩
  intro pre post k k' hk hk'
  unfold classifyLabelTokens
  rw [vocabHits_replace exploitVocab (by simp [vocabList]) pre post k k' hk hk',
    vocabHits_replace codeVocab (by simp [vocabList]) pre post k k' hk hk',
    vocabHits_replace reconVocab (by simp [vocabList]) pre post k k' hk hk',
    vocabHits_replace researchVocab (by simp [vocabList]) pre post k k' hk hk']

/-- Witness for C6: the transposed token "pyhton" labels exactly as the
canonical "python" does in the same phrase. -/
theorem claim_C6_witness :
    classifyLabelTokens ["pyhton", "keylogger"] = classifyLabelTokens ["python", "keylogger"] := by
  have h := claim_C6_typo_tolerance.1 [] ["keylogger"] "python" "pyhton"
    (by decide) (by decide)
  simpa using h

/-- Counterexample to C8 as stated: "forget about that" is labelled `CHAT`
by `classify`, yet from a populated state `handle` resets stage and target —
the clear check pre-empts the CHAT frame condition. -/
theorem claim_C8_counterexample :
    (classify "forget about that").1 = SemanticIntent.CHAT
    ∧ stepState (stepState initState "192.168.1.100 Windows 10") "forget about that"
      ≠ stepState initState "192.168.1.100 Windows 10" := by
  exact ⟨by decide, by decide⟩

/-- C8 (amended): a message labelled `CHAT` that is not a context-clear
instruction leaves the whole engine state unchanged, from any state. -/
theorem claim_C8_chat_frame (s : PentestState) (msg : String)
    (h1 : (classify msg).1 = SemanticIntent.CHAT) (h2 : isClearCommand msg = false) :
    handle_pentest_request s msg = (chatResponse, s) := by
  have h2' : ¬ isClearCommand msg = true := by simp [h2]
  unfold handle_pentest_request
  rw [if_neg h2']
  dsimp only
  rw [h1]
  simp [securityRelevant]

/-- Witness for C8 (amended): the CHAT message "tell me a joke" leaves a
populated state exactly as it was. -/
theorem claim_C8_witness :
    handle_pentest_request (stepState initState "192.168.1.100 Windows 10") "tell me a joke"
      = (chatResponse, stepState initState "192.168.1.100 Windows 10") :=
  claim_C8_chat_frame (stepState initState "192.168.1.100 Windows 10") "tell me a joke"
    (by decide) (by decide)
